import Mathlib

/-!
Verification of the Celestron AUX protocol core (frame codec, frame
receiver, communicator) as implemented in `src/celestron_aux.cpp` and
`src/celestron_aux.h`, against the natural-language specification.

Bytes are modelled as `Nat` values; every place the C++ code performs a
`uint8_t` conversion is made explicit with `% 256`.  Buffers
(`std::vector<uint8_t>`) are modelled as `List Nat`.  Serial I/O is
modelled by an environment assigning to each attempt number the count of
bytes the transport accepted and the raw bytes the receive loop collected.
-/

set_option maxHeartbeats 1000000

namespace CelestronAux

/-- Packet preamble byte, `AUX_HDR = 0x3B` in `celestron_aux.h`. -/
def AUX_HDR : Nat := 0x3B

/-- Retry bound of the communicator, `RETRY_COUNT = 3` in `celestron_aux.h`. -/
def RETRY_COUNT : Nat := 3

/-- Timeout constant `TIMEOUT_MS = 2000` declared in `celestron_aux.h`
(commented there as a 2 second timeout). -/
def TIMEOUT_MS : Nat := 2000

/-- Device address enumeration `Target` from `celestron_aux.h`. -/
inductive Target
  | ANY | MB | HC | HCP | AZM | ALT | FOCUSER | APP | NEX_REMOTE
  | GPS | WiFi | BAT | CHG | LIGHT
deriving DecidableEq

/-- Numeric value of each `Target` enumerant, exactly as in `celestron_aux.h`. -/
def Target.toByte : Target → Nat
  | .ANY => 0x00
  | .MB => 0x01
  | .HC => 0x04
  | .HCP => 0x0d
  | .AZM => 0x10
  | .ALT => 0x11
  | .FOCUSER => 0x12
  | .APP => 0x20
  | .NEX_REMOTE => 0x22
  | .GPS => 0xb0
  | .WiFi => 0xb5
  | .BAT => 0xb6
  | .CHG => 0xb7
  | .LIGHT => 0xbf

/-- Command code enumeration `Command` from `celestron_aux.h`. -/
inductive Command
  | MC_GET_POSITION | MC_GOTO_FAST | MC_SET_POSITION | MC_SET_POS_GUIDERATE
  | MC_SET_NEG_GUIDERATE | MC_LEVEL_START | MC_SET_POS_BACKLASH
  | MC_SET_NEG_BACKLASH | MC_SLEW_DONE | MC_GOTO_SLOW | MC_SEEK_INDEX
  | MC_MOVE_POS | MC_MOVE_NEG | MC_GET_POS_BACKLASH | MC_GET_NEG_BACKLASH
  | GET_VER | FOC_CALIB_ENABLE | FOC_CALIB_DONE | FOC_GET_HS_POSITIONS
deriving DecidableEq

/-- Numeric value of each `Command` enumerant, exactly as in `celestron_aux.h`. -/
def Command.toByte : Command → Nat
  | .MC_GET_POSITION => 0x01
  | .MC_GOTO_FAST => 0x02
  | .MC_SET_POSITION => 0x04
  | .MC_SET_POS_GUIDERATE => 0x06
  | .MC_SET_NEG_GUIDERATE => 0x07
  | .MC_LEVEL_START => 0x0b
  | .MC_SET_POS_BACKLASH => 0x10
  | .MC_SET_NEG_BACKLASH => 0x11
  | .MC_SLEW_DONE => 0x13
  | .MC_GOTO_SLOW => 0x17
  | .MC_SEEK_INDEX => 0x19
  | .MC_MOVE_POS => 0x24
  | .MC_MOVE_NEG => 0x25
  | .MC_GET_POS_BACKLASH => 0x40
  | .MC_GET_NEG_BACKLASH => 0x41
  | .GET_VER => 0xfe
  | .FOC_CALIB_ENABLE => 42
  | .FOC_CALIB_DONE => 43
  | .FOC_GET_HS_POSITIONS => 44

/-- The packet record: fields `length`, `source`, `destination`, `command`,
`data` of class `Packet`.  The C++ `Target`/`Command` fields hold raw casted
bytes after `parse`, so they are modelled as `Nat`. -/
structure Packet where
  length : Nat
  source : Nat
  destination : Nat
  command : Nat
  data : List Nat
deriving DecidableEq

/-- The default constructor `Packet()`: length 0, source `APP`,
destination `FOCUSER`, command `GET_VER`, empty data. -/
def Packet.default : Packet :=
  ⟨0, Target.APP.toByte, Target.FOCUSER.toByte, Command.GET_VER.toByte, []⟩

/-- The constructor `Packet(source, destination, command, data)`:
stores the fields and sets `length = data.size() + 3`. -/
def mkPacket (s d c : Nat) (data : List Nat) : Packet :=
  ⟨data.length + 3, s, d, c, data⟩

/-- `Packet::calculateChecksum`: sums bytes `1` through `packet[1] + 1`
(the loop `for (i = 1; i < packet[1] + 2; i++)`) and returns the low byte
of the negated sum (`-sum & 0xFF`). -/
def calculateChecksum (packet : List Nat) : Nat :=
  (256 - ((packet.drop 1).take (packet.getD 1 0 + 1)).sum % 256) % 256

/-- The data-copy loop of `Packet::fillBuffer`
(`for (i = 0; i < data.size(); i++) buf[5+i] = data[i]`), as recursion over
the data with a running index. -/
def copyData : List Nat → Nat → List Nat → List Nat
  | buf, _, [] => buf
  | buf, i, b :: rest => copyData (buf.set i b) (i + 1) rest

/-- `Packet::fillBuffer`: resize the buffer to `length + 3` (zero filled),
write header, length byte (a `uint8_t`, hence `% 256`), source, destination,
command, copy the data from offset 5, then store the checksum in the last
byte. -/
def Packet.fillBuffer (p : Packet) : List Nat :=
  let buf := List.replicate (p.length + 3) 0
  let buf := buf.set 0 AUX_HDR
  let buf := buf.set 1 (p.length % 256)
  let buf := buf.set 2 (p.source % 256)
  let buf := buf.set 3 (p.destination % 256)
  let buf := buf.set 4 (p.command % 256)
  let buf := copyData buf 5 p.data
  buf.set (p.length + 2) (calculateChecksum buf)

/-- The four failure diagnostics of `Packet::parse`, one per error branch
(each branch prints a distinct parse-error message before returning
`false`). -/
inductive ParseError
  | tooSmall | invalidHeader | sizeMismatch | checksumMismatch
deriving DecidableEq

/-- `Packet::parse`: the method mutates `this` while checking, so it is
modelled as a state transformer returning the diagnostic (`none` standing
for the `true` result) together with the updated packet.  The field
assignments happen exactly where they do in the source: `length` is set
before the size check, and source/destination/command/data are set before
the checksum check. -/
def Packet.parse (p : Packet) (packet : List Nat) : Option ParseError × Packet :=
  if packet.length < 6 then (some .tooSmall, p)
  else if packet.getD 0 0 ≠ AUX_HDR then (some .invalidHeader, p)
  else
    let length := packet.getD 1 0
    let p1 : Packet := { p with length := length }
    if packet.length ≠ length + 3 then (some .sizeMismatch, p1)
    else
      let p2 : Packet := { p1 with
        source := packet.getD 2 0
        destination := packet.getD 3 0
        command := packet.getD 4 0
        data := (packet.drop 5).dropLast }
      let calculated := calculateChecksum packet
      let received := packet.getD (length + 2) 0
      if calculated ≠ received then (some .checksumMismatch, p2) else (none, p2)

/-- Candidate-frame construction inside `Communicator::readPacket`: if the
first collected byte is the header the raw bytes are used as-is, otherwise
the header is pushed first and the raw bytes are appended after it. -/
def candidateFrame (rawData : List Nat) : List Nat :=
  if rawData.getD 0 0 = AUX_HDR then rawData else AUX_HDR :: rawData

/-- `Communicator::readPacket` after the byte-collection loop, as a function
of the collected raw bytes: fail on no data, build the candidate frame,
read its length byte (index 1, via `getD` where the C++ indexes the vector
directly), check the total size, then hand the frame to `Packet::parse`
(which mutates `reply`). -/
def readPacket (rawData : List Nat) (reply : Packet) : Bool × Packet :=
  if rawData.isEmpty then (false, reply)
  else
    let packet := candidateFrame rawData
    let length := packet.getD 1 0
    let expectedSize := length + 3
    if packet.length ≠ expectedSize then (false, reply)
    else
      let r := reply.parse packet
      (r.1.isNone, r.2)

/-- The communicator state: the fixed local `source` address field. -/
structure Communicator where
  source : Nat
deriving DecidableEq

/-- The default constructor `Communicator()`: source `APP`. -/
def Communicator.mkDefault : Communicator := ⟨Target.APP.toByte⟩

/-- `Communicator::sendPacket`: builds `Packet(source, dest, cmd, data)`,
fills the transmit buffer, and succeeds exactly when the transport wrote
every byte of it (`bytesWritten == txBuffer.size()`); the flushes perform
no computation. -/
def Communicator.sendPacket (c : Communicator) (bytesWritten : Nat)
    (dest cmd : Nat) (data : List Nat) : Bool :=
  let txBuffer := (mkPacket c.source dest cmd data).fillBuffer
  bytesWritten == txBuffer.length

/-- Per-attempt transport behaviour: for each attempt number, how many
bytes the write accepted and which raw bytes the receive loop collected. -/
structure SerialEnv where
  bytesWritten : Nat → Nat
  rawData : Nat → List Nat

/-- The retry loop of `Communicator::sendCommand`
(`while (retryCount++ < RETRY_COUNT)`), with `retryCount` the attempts
performed so far and `retryCount + 1` the current attempt number.  Each
iteration sends the packet, reads a response into a freshly
default-constructed `Packet`, validates
`command == cmd && destination == Target::APP && source == dest`, and on
any failure continues with the next attempt.  Returns the reply data (or
`none` after exhausting the retries) together with the number of attempts
performed. -/
def sendCommandAux (env : SerialEnv) (c : Communicator) (dest cmd : Nat)
    (data : List Nat) (retryCount : Nat) : Option (List Nat) × Nat :=
  if retryCount < RETRY_COUNT then
    let attempt := retryCount + 1
    if c.sendPacket (env.bytesWritten attempt) dest cmd data = false then
      sendCommandAux env c dest cmd data attempt
    else
      let r := readPacket (env.rawData attempt) Packet.default
      if r.1 = false then
        sendCommandAux env c dest cmd data attempt
      else if r.2.command ≠ cmd ∨ r.2.destination ≠ Target.APP.toByte ∨
          r.2.source ≠ dest then
        sendCommandAux env c dest cmd data attempt
      else
        (some r.2.data, attempt)
  else
    (none, retryCount)
termination_by RETRY_COUNT - retryCount
decreasing_by all_goals omega

/-- `Communicator::sendCommand(serial, dest, cmd, data, reply)`: run the
retry loop from `retryCount = 0`. -/
def Communicator.sendCommand (c : Communicator) (env : SerialEnv)
    (dest cmd : Nat) (data : List Nat) : Option (List Nat) × Nat :=
  sendCommandAux env c dest cmd data 0

/-- The byte-collection loop of `Communicator::readPacket`, discretised to
millisecond steps (each iteration runs `delay(1)`, so one loop iteration is
modelled as one millisecond and `stream t` is the byte, if any, available
at millisecond `t`).  The loop runs while `millis() - startTime < 100`,
appending each available byte and resetting `startTime` to the current
time when a byte is read.  The fuel argument bounds the modelled run and
is not part of the source. -/
def collectLoop (stream : Nat → Option Nat) : Nat → Nat → Nat → List Nat → List Nat
  | 0, _, _, acc => acc
  | fuel + 1, t, startTime, acc =>
    if t - startTime < 100 then
      match stream t with
      | some b => collectLoop stream fuel (t + 1) t (acc ++ [b])
      | none => collectLoop stream fuel (t + 1) startTime acc
    else acc

/-! ### Helper lemmas -/

example : (Packet.default.parse [0x3B, 0x03, 0x20, 0x12, 0xFE, 0xCD]).1 = none := by decide

example : ((mkPacket 0x20 0x12 0xFE []).fillBuffer) = [0x3B, 0x03, 0x20, 0x12, 0xFE, 0xCD] := by decide

theorem set_append_cons (front : List Nat) (x v : Nat) (l : List Nat) :
    (front ++ x :: l).set front.length v = front ++ v :: l := by
  induction front with
  | nil => rfl
  | cons a t ih => simp [ih]

theorem getD_append_length (front : List Nat) (x dflt : Nat) (t : List Nat) :
    (front ++ x :: t).getD front.length dflt = x := by
  induction front with
  | nil => rfl
  | cons a l ih => simpa [List.getD_cons_succ] using ih

theorem copyData_append (data front tail : List Nat) :
    copyData (front ++ (List.replicate data.length 0 ++ tail)) front.length data =
      front ++ (data ++ tail) := by
  induction data generalizing front with
  | nil => simp [copyData]
  | cons b rest ih =>
    simp only [List.length_cons, List.replicate_succ, copyData, List.cons_append,
      List.append_assoc]
    rw [set_append_cons]
    have h := ih (front ++ [b])
    simpa [List.append_assoc] using h

theorem target_toByte_lt (t : Target) : t.toByte < 256 := by
  cases t <;> decide

theorem command_toByte_lt (c : Command) : c.toByte < 256 := by
  cases c <;> decide

/-- The buffer produced by `fillBuffer` on a constructor-built packet:
header, truncated length byte, the three address/command bytes, the payload
verbatim, and the checksum of the buffer as it stood before the final
write (its last byte still zero). -/
theorem fillBuffer_mk (s d c : Nat) (data : List Nat) :
    (mkPacket s d c data).fillBuffer =
      AUX_HDR :: ((data.length + 3) % 256) :: (s % 256) :: (d % 256) :: (c % 256) ::
        (data ++ [calculateChecksum (AUX_HDR :: ((data.length + 3) % 256) :: (s % 256) ::
          (d % 256) :: (c % 256) :: (data ++ [0]))]) := by
  have hrep : List.replicate (data.length + 3 + 3) (0 : Nat) =
      0 :: 0 :: 0 :: 0 :: 0 :: List.replicate (data.length + 1) 0 := by
    rw [show data.length + 3 + 3 = 5 + (data.length + 1) by omega, List.replicate_add]
    rfl
  have hsets : (((((List.replicate (data.length + 3 + 3) (0 : Nat)).set 0 AUX_HDR).set 1
      ((data.length + 3) % 256)).set 2 (s % 256)).set 3 (d % 256)).set 4 (c % 256) =
      AUX_HDR :: ((data.length + 3) % 256) :: (s % 256) :: (d % 256) :: (c % 256) ::
        List.replicate (data.length + 1) 0 := by
    rw [hrep]
    rfl
  have hcopy : copyData (AUX_HDR :: ((data.length + 3) % 256) :: (s % 256) :: (d % 256) ::
      (c % 256) :: List.replicate (data.length + 1) 0) 5 data =
      AUX_HDR :: ((data.length + 3) % 256) :: (s % 256) :: (d % 256) :: (c % 256) ::
        (data ++ [0]) := by
    have h := copyData_append data
      [AUX_HDR, (data.length + 3) % 256, s % 256, d % 256, c % 256] [0]
    rw [List.replicate_succ']
    simpa using h
  have hset5 : (AUX_HDR :: ((data.length + 3) % 256) :: (s % 256) :: (d % 256) :: (c % 256) ::
      (data ++ [0])).set (data.length + 3 + 2)
        (calculateChecksum (AUX_HDR :: ((data.length + 3) % 256) :: (s % 256) :: (d % 256) ::
          (c % 256) :: (data ++ [0]))) =
      AUX_HDR :: ((data.length + 3) % 256) :: (s % 256) :: (d % 256) :: (c % 256) ::
        (data ++ [calculateChecksum (AUX_HDR :: ((data.length + 3) % 256) :: (s % 256) ::
          (d % 256) :: (c % 256) :: (data ++ [0]))]) := by
    have hfive : data.length + 3 + 2 =
        ([AUX_HDR, (data.length + 3) % 256, s % 256, d % 256, c % 256] ++ data).length := by
      simp
    rw [hfive]
    simp [set_append_cons, List.append_assoc]
  unfold Packet.fillBuffer mkPacket
  simp only [hsets, hcopy, hset5]

/-- The checksum of a frame-shaped buffer whose length byte matches the
payload: the sum ranges over the length byte, the three address/command
bytes and the payload, and the trailing byte does not participate. -/
theorem calculateChecksum_frame (lb s d c z : Nat) (payload : List Nat)
    (hlb : lb = payload.length + 3) :
    calculateChecksum (AUX_HDR :: lb :: s :: d :: c :: (payload ++ [z])) =
      (256 - (lb + s + d + c + payload.sum) % 256) % 256 := by
  subst hlb
  unfold calculateChecksum
  have h1 : (AUX_HDR :: (payload.length + 3) :: s :: d :: c :: (payload ++ [z])).getD 1 0 =
      payload.length + 3 := rfl
  have h2 : (AUX_HDR :: (payload.length + 3) :: s :: d :: c :: (payload ++ [z])).drop 1 =
      [payload.length + 3, s, d, c] ++ (payload ++ [z]) := rfl
  rw [h1, h2]
  have h3 : ([payload.length + 3, s, d, c] ++ (payload ++ [z])).take (payload.length + 3 + 1) =
      [payload.length + 3, s, d, c] ++ payload := by
    rw [List.take_append_eq_append_take]
    have h4 : ([payload.length + 3, s, d, c] : List Nat).take (payload.length + 3 + 1) =
        [payload.length + 3, s, d, c] :=
      List.take_of_length_le (by simp only [List.length_cons, List.length_nil]; omega)
    have h5 : payload.length + 3 + 1 - ([payload.length + 3, s, d, c] : List Nat).length =
        payload.length := by
      simp only [List.length_cons, List.length_nil]
      omega
    rw [h4, h5, List.take_append_eq_append_take, List.take_of_length_le (le_refl _)]
    simp
  rw [h3]
  have h6 : ([payload.length + 3, s, d, c] ++ payload).sum =
      payload.length + 3 + s + d + c + payload.sum := by
    simp [List.sum_append]
    omega
  rw [h6]

/-- Parsing a frame-shaped buffer whose length byte matches the payload and
whose trailing byte equals the checksum succeeds and stores the buffer
field bytes and the payload in the packet. -/
theorem parse_frame (q : Packet) (lb s d c chk : Nat) (payload : List Nat)
    (hlb : lb = payload.length + 3)
    (hchk : calculateChecksum (AUX_HDR :: lb :: s :: d :: c :: (payload ++ [chk])) = chk) :
    q.parse (AUX_HDR :: lb :: s :: d :: c :: (payload ++ [chk])) =
      (none, ⟨lb, s, d, c, payload⟩) := by
  subst hlb
  unfold Packet.parse
  have hlen : (AUX_HDR :: (payload.length + 3) :: s :: d :: c :: (payload ++ [chk])).length =
      payload.length + 6 := by simp
  have hg0 : (AUX_HDR :: (payload.length + 3) :: s :: d :: c ::
      (payload ++ [chk])).getD 0 0 = AUX_HDR := rfl
  have hg1 : (AUX_HDR :: (payload.length + 3) :: s :: d :: c ::
      (payload ++ [chk])).getD 1 0 = payload.length + 3 := rfl
  have hg2 : (AUX_HDR :: (payload.length + 3) :: s :: d :: c ::
      (payload ++ [chk])).getD 2 0 = s := rfl
  have hg3 : (AUX_HDR :: (payload.length + 3) :: s :: d :: c ::
      (payload ++ [chk])).getD 3 0 = d := rfl
  have hg4 : (AUX_HDR :: (payload.length + 3) :: s :: d :: c ::
      (payload ++ [chk])).getD 4 0 = c := rfl
  have hdata : ((AUX_HDR :: (payload.length + 3) :: s :: d :: c ::
      (payload ++ [chk])).drop 5).dropLast = payload := by
    have h : (AUX_HDR :: (payload.length + 3) :: s :: d :: c ::
        (payload ++ [chk])).drop 5 = payload ++ [chk] := rfl
    rw [h, List.dropLast_concat]
  have hrecv : (AUX_HDR :: (payload.length + 3) :: s :: d :: c ::
      (payload ++ [chk])).getD (payload.length + 3 + 2) 0 = chk := by
    have hsh : AUX_HDR :: (payload.length + 3) :: s :: d :: c :: (payload ++ [chk]) =
        ([AUX_HDR, payload.length + 3, s, d, c] ++ payload) ++ chk :: [] := by
      simp
    have hix : payload.length + 3 + 2 =
        ([AUX_HDR, payload.length + 3, s, d, c] ++ payload).length := by
      simp only [List.length_append, List.length_cons, List.length_nil]
      omega
    rw [hsh, hix, getD_append_length]
  simp only []
  rw [hlen, hg0, hg1, hg2, hg3, hg4, hdata, hrecv, hchk]
  rw [if_neg (by omega : ¬ (payload.length + 6 < 6))]
  rw [if_neg (by simp : ¬ (AUX_HDR ≠ AUX_HDR))]
  rw [if_neg (by omega : ¬ (payload.length + 6 ≠ payload.length + 3 + 3))]
  rw [if_neg (by simp : ¬ (chk ≠ chk))]

/-- Parsing the buffer produced by `fillBuffer` on a constructor-built
packet with payload of at most 252 bytes succeeds and recovers the four
field bytes and the payload. -/
theorem parse_fillBuffer (q : Packet) (s d c : Nat) (payload : List Nat)
    (hlen : payload.length ≤ 252) :
    q.parse ((mkPacket s d c payload).fillBuffer) =
      (none, ⟨payload.length + 3, s % 256, d % 256, c % 256, payload⟩) := by
  have hmod : (payload.length + 3) % 256 = payload.length + 3 := Nat.mod_eq_of_lt (by omega)
  rw [fillBuffer_mk, hmod]
  have e1 := calculateChecksum_frame (payload.length + 3) (s % 256) (d % 256) (c % 256)
    (calculateChecksum (AUX_HDR :: (payload.length + 3) :: (s % 256) :: (d % 256) ::
      (c % 256) :: (payload ++ [0]))) payload rfl
  have e2 := calculateChecksum_frame (payload.length + 3) (s % 256) (d % 256) (c % 256)
    0 payload rfl
  exact parse_frame q _ _ _ _ _ payload rfl (e1.trans e2.symm)

/-- `readPacket` on the buffer produced by `fillBuffer` (payload at most
252 bytes) succeeds: the candidate frame already starts with the header,
the size check passes, and `parse` fills in the reply. -/
theorem readPacket_fillBuffer (s d c : Nat) (payload : List Nat)
    (hlen : payload.length ≤ 252) (q : Packet) :
    readPacket ((mkPacket s d c payload).fillBuffer) q =
      (true, ⟨payload.length + 3, s % 256, d % 256, c % 256, payload⟩) := by
  have hmod : (payload.length + 3) % 256 = payload.length + 3 := Nat.mod_eq_of_lt (by omega)
  have hp := parse_fillBuffer q s d c payload hlen
  rw [fillBuffer_mk, hmod] at hp ⊢
  unfold readPacket candidateFrame
  have hg0 : (AUX_HDR :: (payload.length + 3) :: (s % 256) :: (d % 256) :: (c % 256) ::
      (payload ++ [calculateChecksum (AUX_HDR :: (payload.length + 3) :: (s % 256) ::
        (d % 256) :: (c % 256) :: (payload ++ [0]))])).getD 0 0 = AUX_HDR := rfl
  have hg1 : (AUX_HDR :: (payload.length + 3) :: (s % 256) :: (d % 256) :: (c % 256) ::
      (payload ++ [calculateChecksum (AUX_HDR :: (payload.length + 3) :: (s % 256) ::
        (d % 256) :: (c % 256) :: (payload ++ [0]))])).getD 1 0 = payload.length + 3 := rfl
  have hln : (AUX_HDR :: (payload.length + 3) :: (s % 256) :: (d % 256) :: (c % 256) ::
      (payload ++ [calculateChecksum (AUX_HDR :: (payload.length + 3) :: (s % 256) ::
        (d % 256) :: (c % 256) :: (payload ++ [0]))])).length = payload.length + 6 := by
    simp
  simp only [List.isEmpty_cons, Bool.false_eq_true, if_false, eq_self_iff_true, ite_true,
    hg0, hg1, hln]
  rw [if_neg (by omega : ¬ (payload.length + 6 ≠ payload.length + 3 + 3))]
  rw [hp]
  rfl

/-- Branch lemma: a buffer shorter than 6 bytes makes `parse` return the
too-small diagnostic with the packet untouched. -/
theorem parse_eq_of_short (q : Packet) (buf : List Nat) (h : buf.length < 6) :
    q.parse buf = (some ParseError.tooSmall, q) := by
  unfold Packet.parse
  rw [if_pos h]

/-- Branch lemma: a buffer of length at least 6 whose first byte is not the
header makes `parse` return the invalid-header diagnostic with the packet
untouched. -/
theorem parse_eq_of_badHeader (q : Packet) (buf : List Nat) (h6 : ¬ buf.length < 6)
    (hh : buf.getD 0 0 ≠ AUX_HDR) :
    q.parse buf = (some ParseError.invalidHeader, q) := by
  unfold Packet.parse
  rw [if_neg h6, if_pos hh]

/-- Branch lemma: when the header checks pass but the size does not match
`buffer[1] + 3`, `parse` returns the size-mismatch diagnostic with the
`length` field already overwritten. -/
theorem parse_eq_of_sizeMismatch (q : Packet) (buf : List Nat) (h6 : ¬ buf.length < 6)
    (hh : buf.getD 0 0 = AUX_HDR) (hs : buf.length ≠ buf.getD 1 0 + 3) :
    q.parse buf = (some ParseError.sizeMismatch, { q with length := buf.getD 1 0 }) := by
  unfold Packet.parse
  simp only []
  rw [if_neg h6, if_neg (not_not_intro hh), if_pos hs]

/-- Branch lemma: when the header and size checks pass but the checksum
does not match, `parse` returns the checksum-mismatch diagnostic with all
five fields already overwritten from the buffer. -/
theorem parse_eq_of_checksumMismatch (q : Packet) (buf : List Nat) (h6 : ¬ buf.length < 6)
    (hh : buf.getD 0 0 = AUX_HDR) (hs : buf.length = buf.getD 1 0 + 3)
    (hc : calculateChecksum buf ≠ buf.getD (buf.getD 1 0 + 2) 0) :
    q.parse buf = (some ParseError.checksumMismatch,
      ⟨buf.getD 1 0, buf.getD 2 0, buf.getD 3 0, buf.getD 4 0, (buf.drop 5).dropLast⟩) := by
  unfold Packet.parse
  simp only []
  rw [if_neg h6, if_neg (not_not_intro hh), if_neg (not_not_intro hs), if_pos hc]

/-- Branch lemma: when all four checks pass, `parse` succeeds and all five
fields hold the values taken from the buffer. -/
theorem parse_eq_of_ok (q : Packet) (buf : List Nat) (h6 : ¬ buf.length < 6)
    (hh : buf.getD 0 0 = AUX_HDR) (hs : buf.length = buf.getD 1 0 + 3)
    (hc : calculateChecksum buf = buf.getD (buf.getD 1 0 + 2) 0) :
    q.parse buf = (none,
      ⟨buf.getD 1 0, buf.getD 2 0, buf.getD 3 0, buf.getD 4 0, (buf.drop 5).dropLast⟩) := by
  unfold Packet.parse
  simp only []
  rw [if_neg h6, if_neg (not_not_intro hh), if_neg (not_not_intro hs),
    if_neg (not_not_intro hc)]

/-- Step lemma: a failed write continues the loop with the next attempt. -/
theorem sendCommandAux_step_sendFail (env : SerialEnv) (c : Communicator) (dest cmd : Nat)
    (data : List Nat) (rc : Nat) (h : rc < RETRY_COUNT)
    (hw : c.sendPacket (env.bytesWritten (rc + 1)) dest cmd data = false) :
    sendCommandAux env c dest cmd data rc = sendCommandAux env c dest cmd data (rc + 1) := by
  rw [sendCommandAux]
  simp only []
  rw [if_pos h, if_pos hw]

/-- Step lemma: a failed read continues the loop with the next attempt. -/
theorem sendCommandAux_step_readFail (env : SerialEnv) (c : Communicator) (dest cmd : Nat)
    (data : List Nat) (rc : Nat) (h : rc < RETRY_COUNT)
    (hw : c.sendPacket (env.bytesWritten (rc + 1)) dest cmd data = true)
    (hr : (readPacket (env.rawData (rc + 1)) Packet.default).1 = false) :
    sendCommandAux env c dest cmd data rc = sendCommandAux env c dest cmd data (rc + 1) := by
  rw [sendCommandAux]
  simp only []
  rw [if_pos h, if_neg (by simp [hw]), if_pos hr]

/-- Step lemma: a successful read whose packet fails the
command/destination/source validation continues the loop with the next
attempt. -/
theorem sendCommandAux_step_mismatch (env : SerialEnv) (c : Communicator) (dest cmd : Nat)
    (data : List Nat) (rc : Nat) (h : rc < RETRY_COUNT)
    (hw : c.sendPacket (env.bytesWritten (rc + 1)) dest cmd data = true)
    (hr : (readPacket (env.rawData (rc + 1)) Packet.default).1 = true)
    (hm : (readPacket (env.rawData (rc + 1)) Packet.default).2.command ≠ cmd ∨
      (readPacket (env.rawData (rc + 1)) Packet.default).2.destination ≠ Target.APP.toByte ∨
      (readPacket (env.rawData (rc + 1)) Packet.default).2.source ≠ dest) :
    sendCommandAux env c dest cmd data rc = sendCommandAux env c dest cmd data (rc + 1) := by
  rw [sendCommandAux]
  simp only []
  rw [if_pos h, if_neg (by simp [hw]), if_neg (by simp [hr]), if_pos hm]

/-- Step lemma: a successful read whose packet passes the validation makes
the loop return the reply data together with the attempt number. -/
theorem sendCommandAux_step_accept (env : SerialEnv) (c : Communicator) (dest cmd : Nat)
    (data : List Nat) (rc : Nat) (h : rc < RETRY_COUNT)
    (hw : c.sendPacket (env.bytesWritten (rc + 1)) dest cmd data = true)
    (hr : (readPacket (env.rawData (rc + 1)) Packet.default).1 = true)
    (h1 : (readPacket (env.rawData (rc + 1)) Packet.default).2.command = cmd)
    (h2 : (readPacket (env.rawData (rc + 1)) Packet.default).2.destination = Target.APP.toByte)
    (h3 : (readPacket (env.rawData (rc + 1)) Packet.default).2.source = dest) :
    sendCommandAux env c dest cmd data rc =
      (some (readPacket (env.rawData (rc + 1)) Packet.default).2.data, rc + 1) := by
  rw [sendCommandAux]
  simp only []
  rw [if_pos h, if_neg (by simp [hw]), if_neg (by simp [hr]),
    if_neg (by simp [h1, h2, h3])]

/-- Step lemma: once the retry count reaches the bound, the loop stops with
a failure result carrying the attempt count. -/
theorem sendCommandAux_exhausted (env : SerialEnv) (c : Communicator) (dest cmd : Nat)
    (data : List Nat) (rc : Nat) (h : ¬ rc < RETRY_COUNT) :
    sendCommandAux env c dest cmd data rc = (none, rc) := by
  rw [sendCommandAux]
  simp only []
  rw [if_neg h]

/-! ### Claim theorems -/

/-- Claim C1: for every source, destination and command from the fixed
enumerations and every byte payload of length 0..252, `Packet::parse`
applied to the buffer produced by `Packet::fillBuffer` succeeds and
recovers exactly the original source, destination, command and payload
bytes, whatever the prior state of the parsing packet. -/
theorem roundtrip_encode_decode (s d : Target) (c : Command) (payload : List Nat)
    (hlen : payload.length ≤ 252) (_hbytes : ∀ b ∈ payload, b < 256) (q : Packet) :
    (q.parse ((mkPacket s.toByte d.toByte c.toByte payload).fillBuffer)).1 = none ∧
    (q.parse ((mkPacket s.toByte d.toByte c.toByte payload).fillBuffer)).2.source =
      s.toByte ∧
    (q.parse ((mkPacket s.toByte d.toByte c.toByte payload).fillBuffer)).2.destination =
      d.toByte ∧
    (q.parse ((mkPacket s.toByte d.toByte c.toByte payload).fillBuffer)).2.command =
      c.toByte ∧
    (q.parse ((mkPacket s.toByte d.toByte c.toByte payload).fillBuffer)).2.data = payload := by
  rw [parse_fillBuffer q s.toByte d.toByte c.toByte payload hlen]
  exact ⟨rfl, Nat.mod_eq_of_lt (target_toByte_lt s), Nat.mod_eq_of_lt (target_toByte_lt d),
    Nat.mod_eq_of_lt (command_toByte_lt c), rfl⟩

/-- Witness for `roundtrip_encode_decode`: concrete round trip of a
two-byte payload through the default parsing packet. -/
theorem roundtrip_encode_decode_witness :
    ([1, 2] : List Nat).length ≤ 252 ∧ (∀ b ∈ ([1, 2] : List Nat), b < 256) ∧
    ((Packet.default.parse ((mkPacket Target.APP.toByte Target.FOCUSER.toByte
        Command.GET_VER.toByte [1, 2]).fillBuffer)).1 = none ∧
      (Packet.default.parse ((mkPacket Target.APP.toByte Target.FOCUSER.toByte
        Command.GET_VER.toByte [1, 2]).fillBuffer)).2.source = Target.APP.toByte ∧
      (Packet.default.parse ((mkPacket Target.APP.toByte Target.FOCUSER.toByte
        Command.GET_VER.toByte [1, 2]).fillBuffer)).2.destination = Target.FOCUSER.toByte ∧
      (Packet.default.parse ((mkPacket Target.APP.toByte Target.FOCUSER.toByte
        Command.GET_VER.toByte [1, 2]).fillBuffer)).2.command = Command.GET_VER.toByte ∧
      (Packet.default.parse ((mkPacket Target.APP.toByte Target.FOCUSER.toByte
        Command.GET_VER.toByte [1, 2]).fillBuffer)).2.data = [1, 2]) :=
  ⟨by decide, by decide,
    roundtrip_encode_decode Target.APP Target.FOCUSER Command.GET_VER [1, 2]
      (by decide) (by decide) Packet.default⟩

/-- Claim C3 (amended): the function `fillBuffer` never fails.  For every payload it produces
a buffer of `payload.length + 6` bytes whose length byte is
`(payload.length + 3) % 256`; when the payload has at most 252 bytes the
result is a well-formed frame (it decodes successfully), and for larger
payloads a buffer is still produced silently, with a truncated length
byte, since the code raises no payload-size error. -/
theorem encode_total_no_payload_error (s d c : Nat) (payload : List Nat) :
    ((mkPacket s d c payload).fillBuffer).length = payload.length + 6 ∧
    ((mkPacket s d c payload).fillBuffer).getD 1 0 = (payload.length + 3) % 256 ∧
    (payload.length ≤ 252 →
      ∀ q : Packet, (q.parse ((mkPacket s d c payload).fillBuffer)).1 = none) := by
  refine ⟨?_, ?_, ?_⟩
  · rw [fillBuffer_mk]
    simp only [List.length_cons, List.length_append]
    simp
  · rw [fillBuffer_mk]
    rfl
  · intro h q
    rw [parse_fillBuffer q s d c payload h]

/-- Witness for `encode_total_no_payload_error` at a concrete oversized
input bound. -/
theorem encode_total_no_payload_error_witness :
    ((mkPacket 0x20 0x12 0xFE [7]).fillBuffer).length = 7 ∧
    ((mkPacket 0x20 0x12 0xFE [7]).fillBuffer).getD 1 0 = 4 ∧
    (Packet.default.parse ((mkPacket 0x20 0x12 0xFE [7]).fillBuffer)).1 = none := by
  have h := encode_total_no_payload_error 0x20 0x12 0xFE [7]
  exact ⟨h.1, h.2.1, h.2.2 (by decide) Packet.default⟩

/-- Counterexample for C3 as stated: a 253-byte payload does not fail with
any payload-size error — `fillBuffer` silently produces a 259-byte buffer
whose length byte has wrapped around to 0. -/
theorem fillBuffer_oversized_payload_still_encodes :
    ((mkPacket 0x20 0x12 0xFE (List.replicate 253 0)).fillBuffer).length = 259 ∧
    ((mkPacket 0x20 0x12 0xFE (List.replicate 253 0)).fillBuffer).getD 1 0 = 0 := by
  rw [fillBuffer_mk]
  constructor
  · simp only [List.length_cons, List.length_nil, List.length_append,
      List.length_replicate]
  · rw [List.length_replicate]
    rfl

/-- Claim C4: the method `Packet::parse` succeeds exactly when the buffer has at least 6
bytes, starts with the sentinel, has total size `buffer[1] + 3`, and the
checksum over bytes 1 through length+1 equals the byte at index
`length + 2` (which, under the size condition, is the trailing byte); each
violated condition yields the corresponding diagnostic, and the checks are
applied in that order. -/
theorem parse_error_taxonomy (q : Packet) (buf : List Nat) :
    ((q.parse buf).1 = none ↔
      6 ≤ buf.length ∧ buf.getD 0 0 = AUX_HDR ∧ buf.length = buf.getD 1 0 + 3 ∧
        calculateChecksum buf = buf.getD (buf.getD 1 0 + 2) 0) ∧
    (buf.length < 6 → (q.parse buf).1 = some ParseError.tooSmall) ∧
    (6 ≤ buf.length → buf.getD 0 0 ≠ AUX_HDR →
      (q.parse buf).1 = some ParseError.invalidHeader) ∧
    (6 ≤ buf.length → buf.getD 0 0 = AUX_HDR → buf.length ≠ buf.getD 1 0 + 3 →
      (q.parse buf).1 = some ParseError.sizeMismatch) ∧
    (6 ≤ buf.length → buf.getD 0 0 = AUX_HDR → buf.length = buf.getD 1 0 + 3 →
      calculateChecksum buf ≠ buf.getD (buf.getD 1 0 + 2) 0 →
      (q.parse buf).1 = some ParseError.checksumMismatch) ∧
    (buf.length = buf.getD 1 0 + 3 →
      buf.getD (buf.getD 1 0 + 2) 0 = buf.getD (buf.length - 1) 0) := by
  refine ⟨?_, ?_, ?_, ?_, ?_, ?_⟩
  · constructor
    · intro h
      by_cases c1 : buf.length < 6
      · rw [parse_eq_of_short q buf c1] at h
        simp at h
      · by_cases c2 : buf.getD 0 0 = AUX_HDR
        · by_cases c3 : buf.length = buf.getD 1 0 + 3
          · by_cases c4 : calculateChecksum buf = buf.getD (buf.getD 1 0 + 2) 0
            · exact ⟨by omega, c2, c3, c4⟩
            · rw [parse_eq_of_checksumMismatch q buf c1 c2 c3 c4] at h
              simp at h
          · rw [parse_eq_of_sizeMismatch q buf c1 c2 c3] at h
            simp at h
        · rw [parse_eq_of_badHeader q buf c1 c2] at h
          simp at h
    · rintro ⟨ha, hb, hc, hd⟩
      rw [parse_eq_of_ok q buf (by omega) hb hc hd]
  · intro h
    rw [parse_eq_of_short q buf h]
  · intro h6 hh
    rw [parse_eq_of_badHeader q buf (by omega) hh]
  · intro h6 hh hs
    rw [parse_eq_of_sizeMismatch q buf (by omega) hh hs]
  · intro h6 hh hs hc
    rw [parse_eq_of_checksumMismatch q buf (by omega) hh hs hc]
  · intro hs
    congr 1
    omega

/-- Witness for `parse_error_taxonomy`: the literal frame decodes, and
corrupting its header, size or checksum yields the matching diagnostics. -/
theorem parse_error_taxonomy_witness :
    (Packet.default.parse [0x3B, 0x03, 0x20, 0x12, 0xFE, 0xCD]).1 = none ∧
    (Packet.default.parse [0x3B, 0x03]).1 = some ParseError.tooSmall ∧
    (Packet.default.parse [0x00, 0x03, 0x20, 0x12, 0xFE, 0xCD]).1 =
      some ParseError.invalidHeader ∧
    (Packet.default.parse [0x3B, 0x04, 0x20, 0x12, 0xFE, 0xCD]).1 =
      some ParseError.sizeMismatch ∧
    (Packet.default.parse [0x3B, 0x03, 0x20, 0x12, 0xFE, 0x00]).1 =
      some ParseError.checksumMismatch := by
  refine ⟨?_, ?_, ?_, ?_, ?_⟩
  · exact (parse_error_taxonomy Packet.default [0x3B, 0x03, 0x20, 0x12, 0xFE, 0xCD]).1.mpr
      (by decide)
  · exact (parse_error_taxonomy Packet.default [0x3B, 0x03]).2.1 (by decide)
  · exact (parse_error_taxonomy Packet.default
      [0x00, 0x03, 0x20, 0x12, 0xFE, 0xCD]).2.2.1 (by decide) (by decide)
  · exact (parse_error_taxonomy Packet.default
      [0x3B, 0x04, 0x20, 0x12, 0xFE, 0xCD]).2.2.2.1 (by decide) (by decide) (by decide)
  · exact (parse_error_taxonomy Packet.default
      [0x3B, 0x03, 0x20, 0x12, 0xFE, 0x00]).2.2.2.2.1 (by decide) (by decide) (by decide)
      (by decide)

/-- Claim C7 (amended): on the too-small and invalid-header errors `parse`
leaves the packet unchanged, but on a size-mismatch error the `length`
field has already been overwritten with `buffer[1]`, and on a
checksum-mismatch error all five fields have already been overwritten with
values taken from the buffer, so a decode failure does not leave the output packet
untouched in general. -/
theorem parse_partial_mutation_on_error (q : Packet) (buf : List Nat) :
    (buf.length < 6 → q.parse buf = (some ParseError.tooSmall, q)) ∧
    (6 ≤ buf.length → buf.getD 0 0 ≠ AUX_HDR →
      q.parse buf = (some ParseError.invalidHeader, q)) ∧
    (6 ≤ buf.length → buf.getD 0 0 = AUX_HDR → buf.length ≠ buf.getD 1 0 + 3 →
      q.parse buf = (some ParseError.sizeMismatch, { q with length := buf.getD 1 0 })) ∧
    (6 ≤ buf.length → buf.getD 0 0 = AUX_HDR → buf.length = buf.getD 1 0 + 3 →
      calculateChecksum buf ≠ buf.getD (buf.getD 1 0 + 2) 0 →
      q.parse buf = (some ParseError.checksumMismatch,
        ⟨buf.getD 1 0, buf.getD 2 0, buf.getD 3 0, buf.getD 4 0, (buf.drop 5).dropLast⟩)) :=
  ⟨fun h => parse_eq_of_short q buf h,
    fun h6 hh => parse_eq_of_badHeader q buf (by omega) hh,
    fun h6 hh hs => parse_eq_of_sizeMismatch q buf (by omega) hh hs,
    fun h6 hh hs hc => parse_eq_of_checksumMismatch q buf (by omega) hh hs hc⟩

/-- Witness for `parse_partial_mutation_on_error`: each of the four error
branches evaluated at a concrete buffer. -/
theorem parse_partial_mutation_on_error_witness :
    Packet.default.parse [0x3B, 0x03] = (some ParseError.tooSmall, Packet.default) ∧
    Packet.default.parse [0x00, 0x03, 0x20, 0x12, 0xFE, 0xCD] =
      (some ParseError.invalidHeader, Packet.default) ∧
    Packet.default.parse [0x3B, 0x04, 0x20, 0x12, 0xFE, 0xCD] =
      (some ParseError.sizeMismatch, { Packet.default with length := 0x04 }) ∧
    Packet.default.parse [0x3B, 0x03, 0x10, 0x11, 0x01, 0x00] =
      (some ParseError.checksumMismatch, ⟨0x03, 0x10, 0x11, 0x01, []⟩) := by
  refine ⟨?_, ?_, ?_, ?_⟩
  · exact (parse_partial_mutation_on_error Packet.default [0x3B, 0x03]).1 (by decide)
  · exact (parse_partial_mutation_on_error Packet.default
      [0x00, 0x03, 0x20, 0x12, 0xFE, 0xCD]).2.1 (by decide) (by decide)
  · exact (parse_partial_mutation_on_error Packet.default
      [0x3B, 0x04, 0x20, 0x12, 0xFE, 0xCD]).2.2.1 (by decide) (by decide) (by decide)
  · exact (parse_partial_mutation_on_error Packet.default
      [0x3B, 0x03, 0x10, 0x11, 0x01, 0x00]).2.2.2 (by decide) (by decide) (by decide)
      (by decide)

/-- Counterexample for C7 as stated: a checksum-mismatch failure leaves
the packet fields overwritten — here a parse that returns an error
changes `source` from its prior value 0x20 to the value 0x10 taken from the buffer. -/
theorem parse_checksum_failure_mutates_fields :
    (Packet.default.parse [0x3B, 0x03, 0x10, 0x11, 0x01, 0x00]).1 =
      some ParseError.checksumMismatch ∧
    Packet.default.source = 0x20 ∧
    (Packet.default.parse [0x3B, 0x03, 0x10, 0x11, 0x01, 0x00]).2.source = 0x10 ∧
    (Packet.default.parse [0x3B, 0x03, 0x10, 0x11, 0x01, 0x00]).2 ≠ Packet.default := by
  decide

/-- Claim C8: for every non-empty collected byte sequence, the candidate frame
handed to decode is the sentinel followed by the raw bytes when the first
byte is not the sentinel, and the raw bytes unchanged when it is. -/
theorem candidateFrame_prepends_sentinel (raw : List Nat) (_h : raw ≠ []) :
    (raw.getD 0 0 ≠ AUX_HDR → candidateFrame raw = AUX_HDR :: raw) ∧
    (raw.getD 0 0 = AUX_HDR → candidateFrame raw = raw) := by
  constructor
  · intro hne
    unfold candidateFrame
    rw [if_neg hne]
  · intro he
    unfold candidateFrame
    rw [if_pos he]

/-- Witness for `candidateFrame_prepends_sentinel`: both branches at
concrete raw inputs. -/
theorem candidateFrame_prepends_sentinel_witness :
    ([0x05] : List Nat) ≠ [] ∧ candidateFrame [0x05] = [AUX_HDR, 0x05] ∧
    ([0x3B, 0x03] : List Nat) ≠ [] ∧ candidateFrame [0x3B, 0x03] = [0x3B, 0x03] :=
  ⟨by decide,
    (candidateFrame_prepends_sentinel [0x05] (by decide)).1 (by decide),
    by decide,
    (candidateFrame_prepends_sentinel [0x3B, 0x03] (by decide)).2 (by decide)⟩

/-- Claim C10 (evidence of the out-of-bounds read): when the collected raw bytes
are the single sentinel byte, the candidate frame is that one-byte list,
so index 1 — which `readPacket` reads as the length byte — is not within
its bounds. -/
theorem candidate_length_byte_read_out_of_bounds :
    ([0x3B] : List Nat) ≠ [] ∧ candidateFrame [0x3B] = [0x3B] ∧
    ¬ 1 < (candidateFrame [0x3B]).length := by
  decide

/-- Claim C2 (amended): within any attempt of `sendCommand`, after a successful
write and a successful read, the response is accepted exactly when its
command equals the sent command, its source equals the request
destination, and its destination equals the fixed application address
`Target::APP` (0x20) — not the configured local source of the communicator —
and any mismatch continues the retry loop with the next attempt instead
of aborting the call. -/
theorem sendCommand_validates_against_APP (env : SerialEnv) (c : Communicator)
    (dest cmd : Nat) (data : List Nat) (rc : Nat) (h : rc < RETRY_COUNT)
    (hw : c.sendPacket (env.bytesWritten (rc + 1)) dest cmd data = true)
    (hr : (readPacket (env.rawData (rc + 1)) Packet.default).1 = true) :
    ((readPacket (env.rawData (rc + 1)) Packet.default).2.command = cmd ∧
      (readPacket (env.rawData (rc + 1)) Packet.default).2.destination =
        Target.APP.toByte ∧
      (readPacket (env.rawData (rc + 1)) Packet.default).2.source = dest →
      sendCommandAux env c dest cmd data rc =
        (some (readPacket (env.rawData (rc + 1)) Packet.default).2.data, rc + 1)) ∧
    (¬ ((readPacket (env.rawData (rc + 1)) Packet.default).2.command = cmd ∧
      (readPacket (env.rawData (rc + 1)) Packet.default).2.destination =
        Target.APP.toByte ∧
      (readPacket (env.rawData (rc + 1)) Packet.default).2.source = dest) →
      sendCommandAux env c dest cmd data rc =
        sendCommandAux env c dest cmd data (rc + 1)) := by
  constructor
  · rintro ⟨h1, h2, h3⟩
    exact sendCommandAux_step_accept env c dest cmd data rc h hw hr h1 h2 h3
  · intro hm
    refine sendCommandAux_step_mismatch env c dest cmd data rc h hw hr ?_
    by_contra hcon
    push_neg at hcon
    exact hm ⟨hcon.1, hcon.2.1, hcon.2.2⟩

/-- Witness for `sendCommand_validates_against_APP`: both branches on
concrete transports — a fully matching response is accepted on attempt 1,
and a wrong-command response makes attempt 1 fall through to attempt 2. -/
theorem sendCommand_validates_against_APP_witness :
    sendCommandAux ⟨fun _ => 6, fun _ => (mkPacket 0x12 0x20 0xFE [0x09]).fillBuffer⟩
      Communicator.mkDefault 0x12 0xFE [] 0 = (some [0x09], 1) ∧
    sendCommandAux ⟨fun _ => 6, fun _ => (mkPacket 0x12 0x20 0x01 []).fillBuffer⟩
      Communicator.mkDefault 0x12 0xFE [] 0 =
      sendCommandAux ⟨fun _ => 6, fun _ => (mkPacket 0x12 0x20 0x01 []).fillBuffer⟩
        Communicator.mkDefault 0x12 0xFE [] 1 := by
  constructor
  · have h := (sendCommand_validates_against_APP
      ⟨fun _ => 6, fun _ => (mkPacket 0x12 0x20 0xFE [0x09]).fillBuffer⟩
      Communicator.mkDefault 0x12 0xFE [] 0 (by decide) (by decide) (by decide)).1
      (by refine ⟨?_, ?_, ?_⟩ <;> decide)
    rw [h]
    decide
  · exact (sendCommand_validates_against_APP
      ⟨fun _ => 6, fun _ => (mkPacket 0x12 0x20 0x01 []).fillBuffer⟩
      Communicator.mkDefault 0x12 0xFE [] 0 (by decide) (by decide) (by decide)).2
      (by decide)

/-- Counterexample for C2 as stated: a communicator constructed with local
source 0x04 (`HC`) still accepts a response whose destination byte is
0x20 (`APP`), i.e. a response whose destination does not equal the
own local source address of the communicator, because the code compares the
destination with the constant `Target::APP`. -/
theorem sendCommand_accepts_foreign_destination :
    (Communicator.mk 0x04).source = 0x04 ∧
    (readPacket ((mkPacket 0x12 0x20 0xFE [0x07]).fillBuffer) Packet.default).2.destination =
      0x20 ∧
    (0x20 : Nat) ≠ 0x04 ∧
    (Communicator.mk 0x04).sendCommand
      ⟨fun _ => 6, fun _ => (mkPacket 0x12 0x20 0xFE [0x07]).fillBuffer⟩ 0x12 0xFE [] =
      (some [0x07], 1) := by
  refine ⟨rfl, by decide, by decide, ?_⟩
  unfold Communicator.sendCommand
  have h := sendCommandAux_step_accept
    ⟨fun _ => 6, fun _ => (mkPacket 0x12 0x20 0xFE [0x07]).fillBuffer⟩
    (Communicator.mk 0x04) 0x12 0xFE [] 0 (by decide) (by decide) (by decide)
    (by decide) (by decide) (by decide)
  rw [h]
  decide

/-- Claim C5: when the write of every attempt succeeds and the read phase of
fails, `sendCommand` performs exactly `RETRY_COUNT` (3) send-then-receive
attempts and returns the failure result; the attempt counter in the result
is exactly `RETRY_COUNT`, so no fourth attempt happens. -/
theorem sendCommand_retry_bound (env : SerialEnv) (c : Communicator) (dest cmd : Nat)
    (data : List Nat)
    (hw : ∀ k, c.sendPacket (env.bytesWritten k) dest cmd data = true)
    (hr : ∀ k, (readPacket (env.rawData k) Packet.default).1 = false) :
    c.sendCommand env dest cmd data = (none, RETRY_COUNT) := by
  unfold Communicator.sendCommand
  rw [sendCommandAux_step_readFail env c dest cmd data 0 (by decide) (hw 1) (hr 1)]
  rw [sendCommandAux_step_readFail env c dest cmd data 1 (by decide) (hw 2) (hr 2)]
  rw [sendCommandAux_step_readFail env c dest cmd data 2 (by decide) (hw 3) (hr 3)]
  exact sendCommandAux_exhausted env c dest cmd data 3 (by decide)

/-- Witness for `sendCommand_retry_bound`: a transport that accepts every
write but never delivers a byte. -/
theorem sendCommand_retry_bound_witness :
    Communicator.mkDefault.sendCommand ⟨fun _ => 6, fun _ => []⟩ 0x12 0xFE [] =
      (none, RETRY_COUNT) :=
  sendCommand_retry_bound ⟨fun _ => 6, fun _ => []⟩ Communicator.mkDefault 0x12 0xFE []
    (fun _ => rfl) (fun _ => rfl)

/-- Claim C6: if the response of the first attempt is a well-formed frame whose
command byte differs from the sent command while the second
response is correct, `sendCommand` succeeds on the second attempt and
returns the payload of the second response; the attempt counter in the result
is 2, so no further attempt happens. -/
theorem sendCommand_mismatch_then_success (env : SerialEnv) (c : Communicator)
    (dest cmd wrongCmd : Nat) (p1 p2 data : List Nat)
    (hdest : dest < 256) (hcmd : cmd < 256) (hwrong : wrongCmd < 256)
    (hne : wrongCmd ≠ cmd)
    (hp1 : p1.length ≤ 252) (hp2 : p2.length ≤ 252)
    (h1 : env.rawData 1 = (mkPacket dest Target.APP.toByte wrongCmd p1).fillBuffer)
    (h2 : env.rawData 2 = (mkPacket dest Target.APP.toByte cmd p2).fillBuffer)
    (hw1 : c.sendPacket (env.bytesWritten 1) dest cmd data = true)
    (hw2 : c.sendPacket (env.bytesWritten 2) dest cmd data = true) :
    c.sendCommand env dest cmd data = (some p2, 2) := by
  unfold Communicator.sendCommand
  have r1 : readPacket (env.rawData 1) Packet.default =
      (true, ⟨p1.length + 3, dest % 256, Target.APP.toByte % 256, wrongCmd % 256, p1⟩) := by
    rw [h1]
    exact readPacket_fillBuffer dest Target.APP.toByte wrongCmd p1 hp1 Packet.default
  have r2 : readPacket (env.rawData 2) Packet.default =
      (true, ⟨p2.length + 3, dest % 256, Target.APP.toByte % 256, cmd % 256, p2⟩) := by
    rw [h2]
    exact readPacket_fillBuffer dest Target.APP.toByte cmd p2 hp2 Packet.default
  rw [sendCommandAux_step_mismatch env c dest cmd data 0 (by decide) hw1 (by rw [r1])
    (by
      rw [r1]
      left
      rw [Nat.mod_eq_of_lt hwrong]
      exact hne)]
  rw [sendCommandAux_step_accept env c dest cmd data 1 (by decide) hw2 (by rw [r2])
    (by rw [r2]; exact Nat.mod_eq_of_lt hcmd)
    (by rw [r2]; rfl)
    (by rw [r2]; exact Nat.mod_eq_of_lt hdest)]
  rw [r2]

/-- Witness for `sendCommand_mismatch_then_success`: a transport whose
first response carries command 0x01 instead of 0xFE and whose second
response is correct. -/
theorem sendCommand_mismatch_then_success_witness :
    Communicator.mkDefault.sendCommand
      ⟨fun _ => 6,
        fun k => if k = 1 then (mkPacket 0x12 0x20 0x01 []).fillBuffer
          else (mkPacket 0x12 0x20 0xFE [0x09]).fillBuffer⟩
      0x12 0xFE [] = (some [0x09], 2) :=
  sendCommand_mismatch_then_success
    ⟨fun _ => 6,
      fun k => if k = 1 then (mkPacket 0x12 0x20 0x01 []).fillBuffer
        else (mkPacket 0x12 0x20 0xFE [0x09]).fillBuffer⟩
    Communicator.mkDefault 0x12 0xFE 0x01 [] [0x09] []
    (by decide) (by decide) (by decide) (by decide) (by decide) (by decide)
    rfl rfl rfl rfl

/-- Unfolding lemma: one silent loop iteration inside the quiet window
advances the clock and keeps the inactivity reference time. -/
theorem collectLoop_tick_none (stream : Nat → Option Nat) (fuel t startTime : Nat)
    (acc : List Nat) (h : t - startTime < 100) (hs : stream t = none) :
    collectLoop stream (fuel + 1) t startTime acc =
      collectLoop stream fuel (t + 1) startTime acc := by
  conv_lhs => rw [collectLoop]
  rw [if_pos h, hs]

/-- Unfolding lemma: a byte-reading loop iteration inside the quiet window
appends the byte and resets the inactivity reference time. -/
theorem collectLoop_tick_some (stream : Nat → Option Nat) (fuel t startTime b : Nat)
    (acc : List Nat) (h : t - startTime < 100) (hs : stream t = some b) :
    collectLoop stream (fuel + 1) t startTime acc =
      collectLoop stream fuel (t + 1) t (acc ++ [b]) := by
  conv_lhs => rw [collectLoop]
  rw [if_pos h, hs]

/-- Unfolding lemma: the loop exits once the quiet window has elapsed. -/
theorem collectLoop_stop (stream : Nat → Option Nat) (fuel t startTime : Nat)
    (acc : List Nat) (h : ¬ t - startTime < 100) :
    collectLoop stream (fuel + 1) t startTime acc = acc := by
  conv_lhs => rw [collectLoop]
  rw [if_neg h]

/-- If the stream stays silent through the whole remaining quiet window,
the loop returns the accumulator unchanged. -/
theorem collectLoop_silent (stream : Nat → Option Nat) :
    ∀ fuel t startTime acc, startTime + 100 ≤ t + fuel →
    (∀ u, t ≤ u → u < startTime + 100 → stream u = none) →
    collectLoop stream fuel t startTime acc = acc := by
  intro fuel
  induction fuel with
  | zero =>
    intro t startTime acc hb hs
    rfl
  | succ fuel ih =>
    intro t startTime acc hb hs
    by_cases hc : t - startTime < 100
    · rw [collectLoop_tick_none stream fuel t startTime acc hc (hs t le_rfl (by omega))]
      exact ih (t + 1) startTime acc (by omega) (fun u hu hv => hs u (by omega) hv)
    · exact collectLoop_stop stream fuel t startTime acc hc

/-- Claim C9 (evidence of the divergence): the byte-collection loop of
`readPacket` gives up 100 ms after its start when no byte has arrived, so
a first response byte arriving at 150 ms — well inside the declared
2000 ms `TIMEOUT_MS` — is never collected and the read phase reports
no data, while a byte arriving immediately is collected; the 100 ms quiet
interval, not `TIMEOUT_MS`, bounds the wait for the first byte. -/
theorem readPhase_not_bounded_by_TIMEOUT_MS :
    collectLoop (fun t => if t = 150 then some 0x3B else none) 400 0 0 [] = [] ∧
    (readPacket (collectLoop (fun t => if t = 150 then some 0x3B else none) 400 0 0 [])
      Packet.default).1 = false ∧
    150 < TIMEOUT_MS ∧
    collectLoop (fun t => if t = 0 then some 0x3B else none) 400 0 0 [] = [0x3B] := by
  have h150 : collectLoop (fun t => if t = 150 then some 0x3B else none) 400 0 0 [] = [] :=
    collectLoop_silent _ 400 0 0 [] (by omega)
      (fun u _ hv => by
        have hu : u ≠ 150 := by omega
        simp [hu])
  have h0 : collectLoop (fun t => if t = 0 then some 0x3B else none) 400 0 0 [] = [0x3B] := by
    rw [show (400 : Nat) = 399 + 1 by norm_num]
    rw [collectLoop_tick_some (fun t => if t = 0 then some 0x3B else none) 399 0 0 0x3B []
      (by omega) (by simp)]
    have hsil := collectLoop_silent (fun t => if t = 0 then some 0x3B else none) 399 1 0
      ([] ++ [0x3B]) (by omega)
      (fun u hu hv => by
        have hne : u ≠ 0 := by omega
        simp [hne])
    rw [hsil]
    rfl
  refine ⟨h150, ?_, by decide, h0⟩
  rw [h150]
  rfl

end CelestronAux
